import Mathlib

/-!
Shallow embedding of `src/wifi_scan_connect.py`.

The Python program keeps all its state in module-level globals
(`current_page_title`, `ap_list`, `selected_ap_index`, `scroll_offset_ap`,
`connection_status`, `device_hostname`, `wlx_interface`, `project_running`,
and the `oled` handle).  We model those globals as one `AppState` record
(the `oled` handle is modelled by a boolean that records whether the
display was initialised successfully).  Each Python function that mutates
globals becomes a Lean function `AppState → AppState`; functions that run
external `subprocess` commands additionally return the list of external
commands they issued (`List Cmd`), and take the outcome of the external
world (scan results, connect results, interface listings) as an explicit
parameter.  Display writes (`oled.text`, `oled.clear`, `print`) have no
effect on the modelled state and are omitted.
-/

namespace WifiScanConnect

/-- The module-level globals of `wifi_scan_connect.py` gathered in a record.
`oled` is `true` when the OLED handle is non-`None`. -/
structure AppState where
  oled : Bool
  current_page_title : String
  ap_list : List String
  selected_ap_index : Int
  scroll_offset_ap : Int
  connection_status : String
  device_hostname : String
  wlx_interface : Option String
  project_running : Bool
deriving DecidableEq, Repr

/-- External commands issued through `subprocess` (display writes excluded).
`lsNet` is `ls /sys/class/net/`; `setHostnameCmd` is `hostnamectl set-hostname`;
`clearProfiles` stands for the nmcli deactivate/delete sequence of
`clear_existing_wifi_connections`; `rescan`/`listSsids` are the two nmcli calls
of `scan_wifi_networks`; `devDisconnect` is `nmcli dev disconnect`;
`wifiConnect` is `nmcli dev wifi connect`; `readIp` is `nmcli -g IP4.ADDRESS dev show`. -/
inductive Cmd where
  | lsNet
  | setHostnameCmd (h : String)
  | clearProfiles
  | rescan
  | listSsids
  | devDisconnect
  | wifiConnect (ssid : String)
  | readIp
deriving DecidableEq, BEq, Repr

/-- Outcome of the external nmcli scan commands in `scan_wifi_networks`:
either the raw SSID lines (already split on newlines, as the Python code
does with `result.strip().split('\n')`), or `subprocess.TimeoutExpired`,
or any other exception. -/
inductive ScanOutcome where
  | success (raw : List String)
  | timeoutExpired
  | exceptionRaised
deriving DecidableEq, Repr

/-- Outcome of the external nmcli commands in `connect_to_wifi`:
`completed returncode marker ipRead1 ipRead2` models the connect process
finishing with the given return code, `marker` standing for
`"successfully activated" in stdout_str`, and the two possible outputs of
the IP-address reads (the second is only consulted when the first is empty);
`timeoutExpired` is `subprocess.TimeoutExpired`; `exceptionRaised` any other
exception. -/
inductive ConnectResult where
  | completed (returncode : Int) (marker : Bool) (ipRead1 ipRead2 : String)
  | timeoutExpired
  | exceptionRaised
deriving DecidableEq, Repr

/-- `handle_rotation` (lines 300-328): ignores the event unless the project
is running and the OLED is up; on the APs page with a non-empty list it
clamps `selected_ap_index + delta` into `[0, len-1]`, adjusts
`scroll_offset_ap` to keep the selection inside the 4-line viewport and
clamps the offset into `[0, max 0 (len-4)]`; on the STATUS page it does
nothing. -/
def handle_rotation (delta : Int) (st : AppState) : AppState :=
  if !st.project_running || !st.oled then st
  else if st.current_page_title = "APs" then
    if st.ap_list = [] then st
    else
      let max_index : Int := (st.ap_list.length : Int) - 1
      let new_index : Int := st.selected_ap_index + delta
      let sel : Int := max 0 (min new_index max_index)
      let scr0 : Int :=
        if sel < st.scroll_offset_ap then sel
        else if sel ≥ st.scroll_offset_ap + 4 then sel - 3
        else st.scroll_offset_ap
      let scr : Int :=
        max 0 (min scr0 (if (st.ap_list.length : Int) > 4 then (st.ap_list.length : Int) - 4 else 0))
      { st with selected_ap_index := sel, scroll_offset_ap := scr }
  else st

/-- The invariant of section 3 of the spec: the selection is a valid index
and the scroll offset keeps it inside the 4-line viewport. -/
def rotInvariant (st : AppState) : Prop :=
  0 ≤ st.selected_ap_index ∧
  st.selected_ap_index < (st.ap_list.length : Int) ∧
  0 ≤ st.scroll_offset_ap ∧
  st.scroll_offset_ap ≤ max 0 ((st.ap_list.length : Int) - 4) ∧
  st.scroll_offset_ap ≤ st.selected_ap_index ∧
  st.selected_ap_index < st.scroll_offset_ap + 4

instance (st : AppState) : Decidable (rotInvariant st) := by
  unfold rotInvariant
  infer_instance

/-- Model of Python `str.strip()`: remove leading and trailing whitespace.
(Lean's own `String.trim` is defined by well-founded recursion over byte
positions and does not evaluate inside the kernel, so we model the same
operation over the character list.) -/
def pyStrip (s : String) : String :=
  String.mk (((s.toList.dropWhile Char.isWhitespace).reverse.dropWhile
    Char.isWhitespace).reverse)

/-- Model of Python `str.startswith(p)` over the character list. -/
def pyStartsWith (s p : String) : Bool :=
  p.toList.isPrefixOf s.toList

/-- The SSID-filtering loop of `scan_wifi_networks` (lines 184-192):
walks the raw SSID lines keeping a `seen_ssids` set (modelled as a list,
only membership is used), strips each line, and keeps it when it is
non-empty, starts with `"QW-"`, and has not been seen yet. -/
def scanFilterLoop : List String → List String → List String
  | [], _ => []
  | ssid :: rest, seen =>
    let s := pyStrip ssid
    if s ≠ "" ∧ pyStartsWith s "QW-" = true ∧ s ∉ seen then
      s :: scanFilterLoop rest (s :: seen)
    else
      scanFilterLoop rest seen

/-- Spec-side predicate: a stripped SSID line survives the filter when it
is non-empty and starts with the configured prefix `"QW-"`. -/
def keepSsid (s : String) : Bool :=
  decide (s ≠ "" ∧ pyStartsWith s "QW-" = true)

/-- Spec-side first-seen deduplication: keeps the first occurrence of each
string, dropping the ones already seen. -/
def dedupFirstSeen (seen : List String) : List String → List String
  | [] => []
  | s :: rest =>
    if s ∈ seen then dedupFirstSeen seen rest
    else s :: dedupFirstSeen (s :: seen) rest

/-- Spec-side description of the scan filtering, staged as the spec words
it: strip every entry, drop empty and non-`"QW-"` entries, then deduplicate
preserving first-seen order. -/
def scanFilterSpec (raw : List String) : List String :=
  dedupFirstSeen [] ((raw.map pyStrip).filter keepSsid)

/-- `scan_wifi_networks` (lines 152-210).  With no interface it installs the
`"No Interface"` placeholder, resets selection and scroll, and returns
before touching `connection_status`.  Otherwise it sets
`connection_status = "Scanning..."`, runs the rescan/list commands (their
outcome is the `ScanOutcome` parameter), filters the raw SSIDs, resets
selection and scroll, substitutes `"No QW- APs"` when the filtered list is
empty, installs `"Scan Error"` on timeout or any other exception, and
finally turns a still-`"Scanning..."` status into `"Scanned/Select"`.
Display calls are omitted. -/
def scan_wifi_networks (res : ScanOutcome) (st : AppState) : AppState × List Cmd :=
  match st.wlx_interface with
  | none =>
      ({ st with ap_list := ["No Interface"],
                 selected_ap_index := 0,
                 scroll_offset_ap := 0 }, [])
  | some _ =>
      let st1 := { st with connection_status := "Scanning..." }
      let scanned : List String :=
        match res with
        | .success raw => scanFilterLoop raw []
        | .timeoutExpired => ["Scan Error"]
        | .exceptionRaised => ["Scan Error"]
      let cmds : List Cmd :=
        match res with
        | .success _ => [.rescan, .listSsids]
        | .timeoutExpired => [.rescan]
        | .exceptionRaised => [.rescan]
      let st2 := { st1 with selected_ap_index := 0,
                            scroll_offset_ap := 0,
                            ap_list := if scanned = [] then ["No QW- APs"] else scanned }
      let st3 :=
        if st2.connection_status = "Scanning..." then
          { st2 with connection_status := "Scanned/Select" }
        else st2
      (st3, cmds)

/-- The CIDR strip in `connect_to_wifi` (line 244):
`ip_result.split('/')[0] if '/' in ip_result else ip_result`, i.e. the part
of the string before the first `'/'` (modelled over the character list,
like `pyStrip`). -/
def stripCidr (s : String) : String :=
  if '/' ∈ s.toList then String.mk (s.toList.takeWhile (fun c => c ≠ '/')) else s

/-- `connect_to_wifi` (lines 212-266).  With no interface it only sets
`connection_status = "No Interface"`.  Otherwise it disconnects the device,
launches the nmcli connect process and, depending on the external outcome:
on return code 0 with the `"successfully activated"` marker it reads the IP
address, retrying the read once (after a sleep) when the first read is
empty, and stores the address (or `"No IP Acquired"`); on any other
completion it stores `"Not Connected"`; on `subprocess.TimeoutExpired`
`"Timeout"`; on any other exception `"Error Occurred"`.  The transient
`"Connecting..."` status only drives the display and is overwritten before
the function returns. -/
def connect_to_wifi (res : ConnectResult) (ssid : String) (st : AppState) :
    AppState × List Cmd :=
  match st.wlx_interface with
  | none => ({ st with connection_status := "No Interface" }, [])
  | some _ =>
      match res with
      | .completed returncode marker ipRead1 ipRead2 =>
          if returncode = 0 ∧ marker = true then
            let ip1 := stripCidr (pyStrip ipRead1)
            if ip1 = "" then
              let ip2 := stripCidr (pyStrip ipRead2)
              if ip2 = "" then
                ({ st with connection_status := "No IP Acquired" },
                 [.devDisconnect, .wifiConnect ssid, .readIp, .readIp])
              else
                ({ st with connection_status := ip2 },
                 [.devDisconnect, .wifiConnect ssid, .readIp, .readIp])
            else
              ({ st with connection_status := ip1 },
               [.devDisconnect, .wifiConnect ssid, .readIp])
          else
            ({ st with connection_status := "Not Connected" },
             [.devDisconnect, .wifiConnect ssid])
      | .timeoutExpired =>
          ({ st with connection_status := "Timeout" },
           [.devDisconnect, .wifiConnect ssid])
      | .exceptionRaised =>
          ({ st with connection_status := "Error Occurred" },
           [.devDisconnect, .wifiConnect ssid])

/-- The status strings for which `disconnect_wifi` skips the actual
`nmcli dev disconnect` call (line 274). -/
def noDisconnectStatuses : List String :=
  ["Not Connected", "Not Started", "Scanned/Select", "No Interface", "Scanning..."]

/-- `disconnect_wifi` (lines 268-281).  With no interface it returns without
touching anything.  Otherwise it issues `nmcli dev disconnect` only when the
status is outside `noDisconnectStatuses` and does not start with `"RPi0"`,
and then unconditionally sets `connection_status = "Not Connected"`. -/
def disconnect_wifi (st : AppState) : AppState × List Cmd :=
  match st.wlx_interface with
  | none => (st, [])
  | some _ =>
      let cmds : List Cmd :=
        if st.connection_status ∉ noDisconnectStatuses ∧
            pyStartsWith st.connection_status "RPi0" = false then
          [.devDisconnect]
        else []
      ({ st with connection_status := "Not Connected" }, cmds)

/-- `handle_click` (lines 330-358).  Ignored unless the project is running
and the OLED is up.  On the APs page: nothing when `selected_ap_index = -1`;
when the list is non-empty and the index is in range, a placeholder
selection (`"Scan Error"`, `"No QW- APs"`, `"No Interface"`) is rejected,
otherwise the page switches to STATUS and `connect_to_wifi` runs; out of
range does nothing.  On the STATUS page: `disconnect_wifi`, switch to the
APs page, rescan. -/
def handle_click (cres : ConnectResult) (sres : ScanOutcome) (st : AppState) :
    AppState × List Cmd :=
  if !st.project_running || !st.oled then (st, [])
  else if st.current_page_title = "APs" then
    if st.selected_ap_index = -1 then (st, [])
    else if st.ap_list ≠ [] ∧ 0 ≤ st.selected_ap_index ∧
        st.selected_ap_index < (st.ap_list.length : Int) then
      let selected_ssid := st.ap_list.getD st.selected_ap_index.toNat ""
      if selected_ssid ∉ ["Scan Error", "No QW- APs", "No Interface"] then
        connect_to_wifi cres selected_ssid { st with current_page_title := "STATUS" }
      else (st, [])
    else (st, [])
  else if st.current_page_title = "STATUS" then
    let d := disconnect_wifi st
    let s := scan_wifi_networks sres { d.1 with current_page_title := "APs" }
    (s.1, d.2 ++ s.2)
  else (st, [])

/-- `get_wlx_interface` (lines 85-98): lists `/sys/class/net/` (the listing
is the parameter) and stores the first interface whose name starts with
`"wlx"` in the `wlx_interface` global; when none is found (or the listing
raised) the global is left untouched and `None` is returned. -/
def get_wlx_interface (ifaces : List String) (st : AppState) :
    AppState × Option String :=
  match ifaces.find? (fun i => pyStartsWith i "wlx") with
  | some i => ({ st with wlx_interface := some i }, some i)
  | none => (st, none)

/-- `set_hostname` (lines 100-117): with an interface, the hostname is
`"RPi0-"` followed by the last 4 alphanumeric characters of the interface
name, degraded to `"RPi0-ERR"` when `hostnamectl` fails (the parameter
`hostnamectlOk`); with no interface the hostname becomes `"RPi0-NOIF"` and
no command is issued. -/
def set_hostname (hostnamectlOk : Bool) (st : AppState) : AppState × List Cmd :=
  match st.wlx_interface with
  | none => ({ st with device_hostname := "RPi0-NOIF" }, [])
  | some iface =>
      let alnum := iface.toList.filter Char.isAlphanum
      let last_chars := String.mk (alnum.drop (alnum.length - 4))
      let h := "RPi0-" ++ last_chars
      if hostnamectlOk then
        ({ st with device_hostname := h }, [.setHostnameCmd h])
      else
        ({ st with device_hostname := "RPi0-ERR" }, [.setHostnameCmd h])

/-- `clear_existing_wifi_connections` (lines 119-150): touches no modelled
state; with an interface it runs the nmcli deactivate/delete sequence
(collapsed to the single `clearProfiles` token), with none it does
nothing. -/
def clear_existing_wifi_connections (st : AppState) : List Cmd :=
  match st.wlx_interface with
  | none => []
  | some _ => [.clearProfiles]

/-- `start_project_action` (lines 361-398).  Ignored while running.  When
the OLED is down it retries `init_oled` (outcome `oledInitOk`) and gives up
if that fails.  It sets `project_running`, discovers the interface when the
global is still unset, and: with no interface found it clears
`project_running` again and returns to the dormant screen; otherwise it
sets the hostname, clears saved profiles, switches to the APs page, sets
`connection_status = "Initial Scan"` and scans. -/
def start_project_action (oledInitOk hostnamectlOk : Bool) (ifaces : List String)
    (sres : ScanOutcome) (st : AppState) : AppState × List Cmd :=
  if st.project_running then (st, [])
  else
    let st0 := if st.oled then st else { st with oled := oledInitOk }
    if !st0.oled then (st0, [])
    else
      let st1 := { st0 with project_running := true }
      let discovered :=
        match st1.wlx_interface with
        | some _ => (st1, ([] : List Cmd))
        | none => ((get_wlx_interface ifaces st1).1, [Cmd.lsNet])
      let st2 := discovered.1
      match st2.wlx_interface with
      | none => ({ st2 with project_running := false }, discovered.2)
      | some _ =>
          let hn := set_hostname hostnamectlOk st2
          let cc := clear_existing_wifi_connections hn.1
          let st3 := { hn.1 with current_page_title := "APs",
                                 connection_status := "Initial Scan" }
          let sc := scan_wifi_networks sres st3
          (sc.1, discovered.2 ++ hn.2 ++ cc ++ sc.2)

/-- `stop_project_action` (lines 400-418).  Ignored while stopped.
Otherwise it clears `project_running`, runs `disconnect_wifi`, and (when the
OLED is up) re-initialises the display, whose new handle state is the
`oledInitOk` parameter.  `ap_list`, `selected_ap_index`, `scroll_offset_ap`,
`device_hostname` and `wlx_interface` are not touched. -/
def stop_project_action (oledInitOk : Bool) (st : AppState) : AppState × List Cmd :=
  if !st.project_running then (st, [])
  else
    let st1 := { st with project_running := false }
    let d := disconnect_wifi st1
    let st2 := if d.1.oled then { d.1 with oled := oledInitOk } else d.1
    (st2, d.2)

/-- A representative running state: connected (status holds an IP address),
with one scanned AP and an interface. -/
def runningConnectedState : AppState :=
  { oled := true, current_page_title := "STATUS", ap_list := ["QW-Home"],
    selected_ap_index := 0, scroll_offset_ap := 0,
    connection_status := "192.168.1.50", device_hostname := "RPi0-0782",
    wlx_interface := some "wlx788cb58b0782", project_running := true }

/-- A running state whose status is `"Not Started"` and which has an
interface. -/
def notStartedState : AppState :=
  { oled := true, current_page_title := "APs", ap_list := [],
    selected_ap_index := 0, scroll_offset_ap := 0,
    connection_status := "Not Started", device_hostname := "RPi0-XXXX",
    wlx_interface := some "wlx788cb58b0782", project_running := true }

/-- A running state on the APs page whose only entry is the
`"No QW- APs"` placeholder. -/
def placeholderState : AppState :=
  { oled := true, current_page_title := "APs", ap_list := ["No QW- APs"],
    selected_ap_index := 0, scroll_offset_ap := 0,
    connection_status := "Scanned/Select", device_hostname := "RPi0-0782",
    wlx_interface := some "wlx788cb58b0782", project_running := true }

theorem handle_rotation_ap_list (delta : Int) (st : AppState) :
    (handle_rotation delta st).ap_list = st.ap_list := by
  unfold handle_rotation
  split_ifs <;> rfl

theorem rotation_arith (len sel scr d : Int) (hlen : 1 ≤ len) (hscr : 0 ≤ scr) :
    0 ≤ max 0 (min (sel + d) (len - 1)) ∧
    max 0 (min (sel + d) (len - 1)) < len ∧
    0 ≤ max 0 (min (if max 0 (min (sel + d) (len - 1)) < scr then max 0 (min (sel + d) (len - 1))
          else if max 0 (min (sel + d) (len - 1)) ≥ scr + 4 then max 0 (min (sel + d) (len - 1)) - 3
          else scr)
        (if len > 4 then len - 4 else 0)) ∧
    max 0 (min (if max 0 (min (sel + d) (len - 1)) < scr then max 0 (min (sel + d) (len - 1))
          else if max 0 (min (sel + d) (len - 1)) ≥ scr + 4 then max 0 (min (sel + d) (len - 1)) - 3
          else scr)
        (if len > 4 then len - 4 else 0)) ≤ max 0 (len - 4) ∧
    max 0 (min (if max 0 (min (sel + d) (len - 1)) < scr then max 0 (min (sel + d) (len - 1))
          else if max 0 (min (sel + d) (len - 1)) ≥ scr + 4 then max 0 (min (sel + d) (len - 1)) - 3
          else scr)
        (if len > 4 then len - 4 else 0)) ≤ max 0 (min (sel + d) (len - 1)) ∧
    max 0 (min (sel + d) (len - 1)) < max 0 (min (if max 0 (min (sel + d) (len - 1)) < scr
            then max 0 (min (sel + d) (len - 1))
          else if max 0 (min (sel + d) (len - 1)) ≥ scr + 4 then max 0 (min (sel + d) (len - 1)) - 3
          else scr)
        (if len > 4 then len - 4 else 0)) + 4 := by
  simp only [max_def, min_def]
  split_ifs <;> omega

theorem handle_rotation_invariant (delta : Int) (st : AppState)
    (hne : st.ap_list ≠ []) (hinv : rotInvariant st) :
    rotInvariant (handle_rotation delta st) := by
  have hlen : 0 < st.ap_list.length := List.length_pos.mpr hne
  obtain ⟨h1, h2, h3, h4, h5, h6⟩ := hinv
  by_cases hg1 : (!st.project_running || !st.oled) = true
  · unfold handle_rotation
    rw [if_pos hg1]
    exact ⟨h1, h2, h3, h4, h5, h6⟩
  · by_cases hg2 : st.current_page_title = "APs"
    · unfold handle_rotation
      rw [if_neg hg1, if_pos hg2, if_neg hne]
      exact rotation_arith (st.ap_list.length : Int) st.selected_ap_index
        st.scroll_offset_ap delta (by omega) h3
    · unfold handle_rotation
      rw [if_neg hg1, if_neg hg2]
      exact ⟨h1, h2, h3, h4, h5, h6⟩

/-- C1: For every sequence of `Rotated(delta)` events handled while the
access-point list is non-empty, the selection/scroll invariant of section 3
(`0 <= selected_index < len`, `0 <= scroll_offset <= max 0 (len-4)`, and
`scroll_offset <= selected_index < scroll_offset + 4`) holds after each
event, provided it holds initially (as it does right after a scan, which
resets both to 0). -/
theorem C1_rotation_invariant (st : AppState) (deltas : List Int)
    (hne : st.ap_list ≠ []) (hinv : rotInvariant st) :
    rotInvariant (deltas.foldl (fun s d => handle_rotation d s) st) := by
  induction deltas generalizing st with
  | nil => exact hinv
  | cons d ds ih =>
      simp only [List.foldl_cons]
      refine ih (handle_rotation d st) ?_ (handle_rotation_invariant d st hne hinv)
      rw [handle_rotation_ap_list]
      exact hne

/-- Concrete run of C1: five APs, selection at 0, scroll at 0, rotations
+7 then -3 keep the invariant. -/
theorem C1_rotation_invariant_witness :
    rotInvariant ([(7 : Int), -3].foldl (fun s d => handle_rotation d s)
      { oled := true, current_page_title := "APs",
        ap_list := ["QW-A", "QW-B", "QW-C", "QW-D", "QW-E"],
        selected_ap_index := 0, scroll_offset_ap := 0,
        connection_status := "Scanned/Select", device_hostname := "RPi0-0001",
        wlx_interface := some "wlx0001", project_running := true }) :=
  C1_rotation_invariant _ _ (by decide) (by decide)

theorem scanFilterLoop_eq_spec_aux (raw : List String) :
    ∀ seen, scanFilterLoop raw seen =
      dedupFirstSeen seen ((raw.map pyStrip).filter keepSsid) := by
  induction raw with
  | nil => intro seen; rfl
  | cons ssid rest ih =>
      intro seen
      simp only [scanFilterLoop, List.map_cons, List.filter_cons]
      by_cases hk : pyStrip ssid ≠ "" ∧ pyStartsWith (pyStrip ssid) "QW-" = true
      · have hkb : keepSsid (pyStrip ssid) = true := decide_eq_true hk
        rw [hkb, if_pos rfl]
        by_cases hs : pyStrip ssid ∈ seen
        · rw [if_neg (fun hcon => hcon.2.2 hs)]
          simp only [dedupFirstSeen]
          rw [if_pos hs]
          exact ih seen
        · rw [if_pos ⟨hk.1, hk.2, hs⟩]
          simp only [dedupFirstSeen]
          rw [if_neg hs]
          rw [ih (pyStrip ssid :: seen)]
      · have hkb : keepSsid (pyStrip ssid) = false := decide_eq_false hk
        rw [hkb, if_neg (fun hcon => Bool.false_ne_true hcon)]
        rw [if_neg (fun hcon => hk ⟨hcon.1, hcon.2.1⟩)]
        exact ih seen

/-- C3: the interleaved filtering loop of `scan_wifi_networks` computes
exactly the staged pipeline the spec describes (trim each raw line, drop
empty entries, drop entries not starting with `"QW-"`, deduplicate keeping
first-seen order), and on the spec scenario
`["QW-Home", "QW-Home", "Office"]` it yields exactly `["QW-Home"]`. -/
theorem C3_scan_filtering :
    (∀ raw : List String, scanFilterLoop raw [] = scanFilterSpec raw) ∧
    scanFilterLoop ["QW-Home", "QW-Home", "Office"] [] = ["QW-Home"] :=
  ⟨fun raw => scanFilterLoop_eq_spec_aux raw [], by decide⟩

/-- C2 fails on the code: stopping from a running, connected state leaves
`ap_list = ["QW-Home"]` (it is never cleared) and sets
`connection_status = "Not Connected"`, not `"Not Started"`. -/
theorem C2_counterexample :
    runningConnectedState.project_running = true ∧
    ¬ ((stop_project_action true runningConnectedState).1.ap_list = [] ∧
       (stop_project_action true runningConnectedState).1.connection_status
         = "Not Started") := by
  decide

/-- C2 (amended): `StopPressed` from any running state clears
`project_running` and leaves `ap_list`, selection and scroll untouched;
`connection_status` becomes `"Not Connected"` when an interface is set and
is untouched otherwise. -/
theorem C2_stop_amended (oledInitOk : Bool) (st : AppState)
    (hrun : st.project_running = true) :
    (stop_project_action oledInitOk st).1.project_running = false ∧
    (stop_project_action oledInitOk st).1.ap_list = st.ap_list ∧
    (stop_project_action oledInitOk st).1.selected_ap_index = st.selected_ap_index ∧
    (stop_project_action oledInitOk st).1.scroll_offset_ap = st.scroll_offset_ap ∧
    (st.wlx_interface = none →
      (stop_project_action oledInitOk st).1.connection_status = st.connection_status) ∧
    (st.wlx_interface.isSome = true →
      (stop_project_action oledInitOk st).1.connection_status = "Not Connected") := by
  cases hif : st.wlx_interface with
  | none =>
      simp only [stop_project_action, hrun, Bool.not_true, Bool.false_eq_true,
        if_false, disconnect_wifi, hif]
      split_ifs <;> simp [hif]
  | some i =>
      simp only [stop_project_action, hrun, Bool.not_true, Bool.false_eq_true,
        if_false, disconnect_wifi, hif]
      split_ifs <;> simp [hif]

/-- Concrete run of the amended C2: stopping `runningConnectedState`. -/
theorem C2_stop_amended_witness :
    runningConnectedState.project_running = true ∧
    ((stop_project_action true runningConnectedState).1.project_running = false ∧
     (stop_project_action true runningConnectedState).1.ap_list
       = runningConnectedState.ap_list ∧
     (stop_project_action true runningConnectedState).1.selected_ap_index
       = runningConnectedState.selected_ap_index ∧
     (stop_project_action true runningConnectedState).1.scroll_offset_ap
       = runningConnectedState.scroll_offset_ap ∧
     (runningConnectedState.wlx_interface = none →
       (stop_project_action true runningConnectedState).1.connection_status
         = runningConnectedState.connection_status) ∧
     (runningConnectedState.wlx_interface.isSome = true →
       (stop_project_action true runningConnectedState).1.connection_status
         = "Not Connected")) :=
  ⟨by decide, C2_stop_amended true runningConnectedState (by decide)⟩

/-- C4: every completion of `scan_wifi_networks` resets the selection and
the scroll offset to 0 and leaves a non-empty `ap_list`; with an interface,
an empty filtered result is replaced by exactly the `"No QW- APs"`
placeholder, and with no interface the list is exactly the
`"No Interface"` placeholder. -/
theorem C4_scan_completion (res : ScanOutcome) (st : AppState) :
    (scan_wifi_networks res st).1.selected_ap_index = 0 ∧
    (scan_wifi_networks res st).1.scroll_offset_ap = 0 ∧
    (scan_wifi_networks res st).1.ap_list ≠ [] ∧
    (st.wlx_interface = none →
      (scan_wifi_networks res st).1.ap_list = ["No Interface"]) ∧
    (st.wlx_interface.isSome = true → ∀ raw, res = .success raw →
      scanFilterLoop raw [] = [] →
      (scan_wifi_networks res st).1.ap_list = ["No QW- APs"]) := by
  cases hif : st.wlx_interface with
  | none => simp [scan_wifi_networks, hif]
  | some i =>
      cases res with
      | success raw =>
          simp only [scan_wifi_networks, hif]
          by_cases hempty : scanFilterLoop raw [] = []
          · simp [hempty]
          · simp [hempty]
      | timeoutExpired => simp [scan_wifi_networks, hif]
      | exceptionRaised => simp [scan_wifi_networks, hif]

/-- Concrete run of C4: a scan whose raw result contains no `"QW-"` SSID
yields exactly the placeholder list. -/
theorem C4_scan_completion_witness :
    (scan_wifi_networks (.success ["Office", "eduroam"]) runningConnectedState).1.ap_list
      = ["No QW- APs"] :=
  (C4_scan_completion (.success ["Office", "eduroam"]) runningConnectedState).2.2.2.2
    (by decide) ["Office", "eduroam"] rfl (by decide)

/-- C5: `EncoderClicked` on the APs page with a placeholder entry selected
leaves the state unchanged and issues no command. -/
theorem C5_click_placeholder_noop (cres : ConnectResult) (sres : ScanOutcome)
    (st : AppState) (hrun : st.project_running = true) (holed : st.oled = true)
    (hpage : st.current_page_title = "APs")
    (hlo : 0 ≤ st.selected_ap_index)
    (hhi : st.selected_ap_index < (st.ap_list.length : Int))
    (hplace : st.ap_list.getD st.selected_ap_index.toNat "" ∈
      ["Scan Error", "No QW- APs", "No Interface"]) :
    handle_click cres sres st = (st, []) := by
  have hne : st.ap_list ≠ [] := by
    intro h
    rw [h] at hhi
    simp only [List.length_nil, Nat.cast_zero] at hhi
    omega
  have hm1 : ¬ st.selected_ap_index = -1 := by omega
  unfold handle_click
  rw [if_neg (by simp [hrun, holed]), if_pos hpage, if_neg hm1,
    if_pos ⟨hne, hlo, hhi⟩, if_neg (not_not_intro hplace)]

/-- Concrete run of C5: clicking on the `"No QW- APs"` placeholder. -/
theorem C5_click_placeholder_noop_witness :
    handle_click .timeoutExpired .timeoutExpired placeholderState
      = (placeholderState, []) :=
  C5_click_placeholder_noop .timeoutExpired .timeoutExpired placeholderState
    (by decide) (by decide) (by decide) (by decide) (by decide) (by decide)

/-- C6 fails on the code: with an interface set and
`connection_status = "Not Started"` (a member of the no-op set),
`disconnect_wifi` issues no command but still rewrites the status to
`"Not Connected"`, so the state is not unchanged. -/
theorem C6_counterexample :
    notStartedState.connection_status ∈ noDisconnectStatuses ∧
    (disconnect_wifi notStartedState).2 = [] ∧
    (disconnect_wifi notStartedState).1 ≠ notStartedState := by
  decide

/-- C6 (amended): when the status is in
`{NotConnected, NotStarted, ScannedAwaitingSelection, NoInterface, Scanning}`
`disconnect_wifi` issues no disconnect command; with no interface the state
is fully unchanged, but with an interface it still overwrites
`connection_status` with `"Not Connected"` (all other fields unchanged). -/
theorem C6_disconnect_amended (st : AppState)
    (hst : st.connection_status ∈ noDisconnectStatuses) :
    (disconnect_wifi st).2 = [] ∧
    (st.wlx_interface = none → (disconnect_wifi st).1 = st) ∧
    (st.wlx_interface.isSome = true →
      (disconnect_wifi st).1 = { st with connection_status := "Not Connected" }) := by
  cases hif : st.wlx_interface with
  | none => simp [disconnect_wifi, hif]
  | some i =>
      refine ⟨?_, by simp [hif], fun _ => ?_⟩
      · simp only [disconnect_wifi, hif]
        rw [if_neg (fun hcon => hcon.1 hst)]
      · simp [disconnect_wifi, hif]

/-- Concrete run of the amended C6 at status `"Not Started"`. -/
theorem C6_disconnect_amended_witness :
    notStartedState.connection_status ∈ noDisconnectStatuses ∧
    ((disconnect_wifi notStartedState).2 = [] ∧
     (notStartedState.wlx_interface = none →
       (disconnect_wifi notStartedState).1 = notStartedState) ∧
     (notStartedState.wlx_interface.isSome = true →
       (disconnect_wifi notStartedState).1
         = { notStartedState with connection_status := "Not Connected" })) :=
  ⟨by decide, C6_disconnect_amended notStartedState (by decide)⟩

/-- C7: with an interface set, `connect_to_wifi` distinguishes the three
terminal outcomes plus timeout: a successful completion with a non-empty
first address read stores that address after exactly one read; with an
empty first read it reads exactly once more and stores the second address,
or `"No IP Acquired"` when that is empty too; any other completion stores
`"Not Connected"` with no address read; and a timeout stores the distinct
`"Timeout"` status. -/
theorem C7_connect_outcomes (st : AppState) (i ssid : String) (returncode : Int)
    (marker : Bool) (ipRead1 ipRead2 : String)
    (hif : st.wlx_interface = some i) :
    ((returncode = 0 ∧ marker = true) → stripCidr (pyStrip ipRead1) ≠ "" →
      (connect_to_wifi (.completed returncode marker ipRead1 ipRead2) ssid st).1.connection_status
          = stripCidr (pyStrip ipRead1) ∧
        (connect_to_wifi (.completed returncode marker ipRead1 ipRead2) ssid st).2
          = [.devDisconnect, .wifiConnect ssid, .readIp]) ∧
    ((returncode = 0 ∧ marker = true) → stripCidr (pyStrip ipRead1) = "" →
      (connect_to_wifi (.completed returncode marker ipRead1 ipRead2) ssid st).2
          = [.devDisconnect, .wifiConnect ssid, .readIp, .readIp] ∧
        (stripCidr (pyStrip ipRead2) ≠ "" →
          (connect_to_wifi (.completed returncode marker ipRead1 ipRead2) ssid st).1.connection_status
            = stripCidr (pyStrip ipRead2)) ∧
        (stripCidr (pyStrip ipRead2) = "" →
          (connect_to_wifi (.completed returncode marker ipRead1 ipRead2) ssid st).1.connection_status
            = "No IP Acquired")) ∧
    (¬ (returncode = 0 ∧ marker = true) →
      (connect_to_wifi (.completed returncode marker ipRead1 ipRead2) ssid st).1.connection_status
          = "Not Connected" ∧
        (connect_to_wifi (.completed returncode marker ipRead1 ipRead2) ssid st).2
          = [.devDisconnect, .wifiConnect ssid]) ∧
    ((connect_to_wifi .timeoutExpired ssid st).1.connection_status = "Timeout" ∧
      "Timeout" ≠ "Not Connected") := by
  refine ⟨?_, ?_, ?_, ?_⟩
  · intro hsucc hip1
    simp only [connect_to_wifi, hif]
    rw [if_pos hsucc, if_neg hip1]
    exact ⟨rfl, rfl⟩
  · intro hsucc hip1
    simp only [connect_to_wifi, hif]
    rw [if_pos hsucc, if_pos hip1]
    by_cases hip2 : stripCidr (pyStrip ipRead2) = ""
    · rw [if_pos hip2]
      exact ⟨rfl, fun hcon => absurd hip2 hcon, fun _ => rfl⟩
    · rw [if_neg hip2]
      exact ⟨rfl, fun _ => rfl, fun hcon => absurd hcon hip2⟩
  · intro hfail
    simp only [connect_to_wifi, hif]
    rw [if_neg hfail]
    exact ⟨rfl, rfl⟩
  · exact ⟨by simp [connect_to_wifi, hif], by decide⟩

/-- Concrete run of C7: a successful connect whose first address read
returns `"192.168.1.110/24"` stores `"192.168.1.110"`. -/
theorem C7_connect_outcomes_witness :
    (connect_to_wifi (.completed 0 true "192.168.1.110/24" "") "QW-Home"
        runningConnectedState).1.connection_status = "192.168.1.110" ∧
    (connect_to_wifi (.completed 0 true "192.168.1.110/24" "") "QW-Home"
        runningConnectedState).2
      = [.devDisconnect, .wifiConnect "QW-Home", .readIp] := by
  have h := (C7_connect_outcomes runningConnectedState "wlx788cb58b0782" "QW-Home"
    0 true "192.168.1.110/24" "" (by decide)).1 ⟨rfl, rfl⟩ (by decide)
  exact ⟨by rw [h.1]; decide, h.2⟩

/-- C8: `StartPressed` while dormant, with the OLED up, no interface stored
and no `"wlx"` interface present, only runs the interface listing and
leaves the state exactly as it was: still dormant, hostname untouched, no
profile clearing and no scan. -/
theorem C8_start_no_interface (oledInitOk hostnamectlOk : Bool) (sres : ScanOutcome)
    (ifaces : List String) (st : AppState)
    (hrun : st.project_running = false) (holed : st.oled = true)
    (hif : st.wlx_interface = none)
    (hfind : ifaces.find? (fun i => pyStartsWith i "wlx") = none) :
    start_project_action oledInitOk hostnamectlOk ifaces sres st = (st, [Cmd.lsNet]) := by
  obtain ⟨o, p, a, s1, s2, c, d, w, r⟩ := st
  simp only at hrun holed hif
  subst hrun holed hif
  simp [start_project_action, get_wlx_interface, hfind]

/-- Concrete run of C8: starting with no `wlx` interface in the listing. -/
theorem C8_start_no_interface_witness :
    start_project_action true true ["eth0", "lo", "wlan0"] .timeoutExpired
      { oled := true, current_page_title := "APs", ap_list := [],
        selected_ap_index := 0, scroll_offset_ap := 0,
        connection_status := "Not Started", device_hostname := "RPi0-XXXX",
        wlx_interface := none, project_running := false }
    = ({ oled := true, current_page_title := "APs", ap_list := [],
         selected_ap_index := 0, scroll_offset_ap := 0,
         connection_status := "Not Started", device_hostname := "RPi0-XXXX",
         wlx_interface := none, project_running := false }, [Cmd.lsNet]) :=
  C8_start_no_interface true true .timeoutExpired ["eth0", "lo", "wlan0"] _
    (by decide) (by decide) (by decide) (by decide)

/-- C10: while the project is not running, both `handle_rotation` and
`handle_click` return immediately, leaving the state unchanged and issuing
no command. -/
theorem C10_dormant_handlers_noop (d : Int) (cres : ConnectResult)
    (sres : ScanOutcome) (st : AppState) (hrun : st.project_running = false) :
    handle_rotation d st = st ∧ handle_click cres sres st = (st, []) := by
  constructor
  · unfold handle_rotation
    rw [if_pos (by simp [hrun])]
  · unfold handle_click
    rw [if_pos (by simp [hrun])]

/-- Concrete run of C10: a rotation and a click in the dormant start
state. -/
theorem C10_dormant_handlers_noop_witness :
    handle_rotation 3
        { oled := true, current_page_title := "APs", ap_list := [],
          selected_ap_index := 0, scroll_offset_ap := 0,
          connection_status := "Not Started", device_hostname := "RPi0-XXXX",
          wlx_interface := none, project_running := false }
      = { oled := true, current_page_title := "APs", ap_list := [],
          selected_ap_index := 0, scroll_offset_ap := 0,
          connection_status := "Not Started", device_hostname := "RPi0-XXXX",
          wlx_interface := none, project_running := false } ∧
    handle_click .timeoutExpired .timeoutExpired
        { oled := true, current_page_title := "APs", ap_list := [],
          selected_ap_index := 0, scroll_offset_ap := 0,
          connection_status := "Not Started", device_hostname := "RPi0-XXXX",
          wlx_interface := none, project_running := false }
      = ({ oled := true, current_page_title := "APs", ap_list := [],
           selected_ap_index := 0, scroll_offset_ap := 0,
           connection_status := "Not Started", device_hostname := "RPi0-XXXX",
           wlx_interface := none, project_running := false }, []) :=
  C10_dormant_handlers_noop 3 .timeoutExpired .timeoutExpired _ (by decide)

end WifiScanConnect
